import Mathlib

/-!
# Verification of the dual-storage registration backend

A shallow embedding in Lean 4 of the persistence core of the
`registration-form` repository: the `DualStorage` coordinator
(`backend-node/models/DualStorage.js`), the Mongoose `User` model
(`backend-node/models/User.js`), the registration route
(`backend-node/routes/userRoutesDual.js`), and the migration tool
(`backend-node/migrate.js`).

Modelling conventions:
* the two JSON files (`users.json`, `stats.json`) and the MongoDB
  collection become explicit fields of a `DualState` record;
* the impure inputs of a single `createUser` call (the bcrypt hash with
  its fresh salt, `uuidv4()`, `new Date().toISOString()`, whether a
  MongoDB insert throws, and the `_id` MongoDB would generate) are
  collected in an `Env` record and passed explicitly;
* JavaScript `String.prototype.toLowerCase()` on the ASCII range is
  modelled by mapping `Char.toLower` over the characters (email fields
  here are ASCII);
* a fallible operation returns `Except String` carrying the thrown
  message, mirroring `throw new Error(...)`.
-/

namespace RegForm

/-- Model of JavaScript `s.toLowerCase()` (ASCII range): lower-case every
character of the string. -/
def jsToLower (s : String) : String :=
  ⟨s.data.map Char.toLower⟩

/-- Model of JavaScript `s.includes(sub)`: some suffix of `s` has `sub`
as a prefix. -/
def jsIncludes (s sub : String) : Bool :=
  (List.range (s.data.length + 1)).any (fun i => sub.data.isPrefixOf (s.data.drop i))

theorem char_toNat_ofNat {n : Nat} (h : n.isValidChar) : (Char.ofNat n).toNat = n := by
  simp only [Char.ofNat, dif_pos h, Char.ofNatAux, Char.toNat, UInt32.toNat]
  rfl

theorem charToLower_idem (c : Char) : c.toLower.toLower = c.toLower := by
  unfold Char.toLower
  by_cases h : c.toNat ≥ 65 ∧ c.toNat ≤ 90
  · rw [if_pos h]
    have hv : (c.toNat + 32).isValidChar := Or.inl (by omega)
    rw [if_neg]
    rw [char_toNat_ofNat hv]
    omega
  · rw [if_neg h, if_neg h]

theorem jsToLower_idem (s : String) : jsToLower (jsToLower s) = jsToLower s := by
  unfold jsToLower
  cases s with
  | mk data =>
    simp only [List.map_map]
    congr 1
    induction data with
    | nil => rfl
    | cons c cs ih =>
      simp only [List.map_cons, Function.comp_apply, charToLower_idem, ih]

/-- The profile-photo descriptor attached by the route when a file was
uploaded (`userRoutesDual.js` lines 865-871). -/
structure ProfilePhoto where
  filename : Option String
  originalName : Option String
  mimetype : Option String
  size : Option Nat
  path : Option String
deriving Repr, DecidableEq

/-- A user record as persisted in `users.json`: the object literal built
by `DualStorage.createUser` (`DualStorage.js` lines 347-374).  Dates and
timestamps are kept as their ISO strings. -/
structure FileUser where
  _id : String
  name : String
  email : String
  password : String
  phone : String
  dateOfBirth : Option String
  gender : Option String
  address : Option String
  city : Option String
  state : Option String
  postalCode : Option String
  country : Option String
  occupation : Option String
  company : Option String
  website : Option String
  emergencyContactName : Option String
  emergencyContactPhone : Option String
  profilePhoto : Option ProfilePhoto
  newsletterSubscription : Bool
  termsAccepted : Bool
  status : String
  emailVerified : Bool
  createdAt : String
  updatedAt : String
  lastLogin : Option String
  loginCount : Nat
deriving Repr, DecidableEq

/-- A document as persisted in the MongoDB `users` collection by the
Mongoose `User` model.  Its `_id` is the ObjectId MongoDB generates
(`saveToMongo` deletes the coordinator's `_id` before insert,
`DualStorage.js` line 428). -/
structure MongoUser where
  _id : String
  name : String
  email : String
  password : String
  phone : String
  dateOfBirth : Option String
  gender : Option String
  address : Option String
  city : Option String
  state : Option String
  postalCode : Option String
  country : Option String
  occupation : Option String
  company : Option String
  website : Option String
  emergencyContactName : Option String
  emergencyContactPhone : Option String
  profilePhoto : Option ProfilePhoto
  newsletterSubscription : Bool
  termsAccepted : Bool
  status : String
  emailVerified : Bool
  createdAt : String
  updatedAt : String
  lastLogin : Option String
  loginCount : Nat
deriving Repr, DecidableEq

/-- The contents of `stats.json` (`initFileStorage`, `DualStorage.js`
lines 316-321). -/
structure Stats where
  totalUsers : Nat
  totalRegistrations : Nat
  lastRegistration : Option String
  createdAt : String
deriving Repr, DecidableEq

/-- The state a `DualStorage` instance operates on: the two JSON files,
the `mongoConnected` flag set at `init` time, and the MongoDB
collection. -/
structure DualState where
  users : List FileUser
  stats : Stats
  mongoConnected : Bool
  mongoUsers : List MongoUser
deriving Repr, DecidableEq

/-- `stats.json` as created by `initFileStorage` (lines 316-321). -/
def initialStats (now : String) : Stats :=
  { totalUsers := 0
    totalRegistrations := 0
    lastRegistration := none
    createdAt := now }

/-- The state right after `init` on a fresh data directory: empty
`users.json`, initial `stats.json`, empty MongoDB collection;
`mongoConnected` is whatever `initMongoStorage` established. -/
def initState (now : String) (mongoConnected : Bool) : DualState :=
  { users := []
    stats := initialStats now
    mongoConnected := mongoConnected
    mongoUsers := [] }

/-- The impure inputs consumed by one `createUser` call, passed
explicitly: the bcrypt hash (with its freshly generated salt) as a
function of the plaintext, the `uuidv4()` value, the current time's ISO
string, whether the MongoDB insert throws for I/O reasons, and the
ObjectId MongoDB would assign to an inserted document. -/
structure Env where
  hashFn : String → String
  newId : String
  now : String
  mongoInsertFails : Bool
  mongoObjectId : String

/-- The registration payload handed to `dualStorage.createUser` by the
route (`userRoutesDual.js` lines 853-873): validated field values, the
camel-cased aliases, and the optional photo descriptor.
`newsletter_subscription` is optional in the schema, hence `Option`;
`terms_accepted` is required, hence plain `Bool`. -/
structure Payload where
  name : String
  email : String
  password : String
  phone : String
  dateOfBirth : Option String
  gender : Option String
  address : Option String
  city : Option String
  state : Option String
  postalCode : Option String
  country : Option String
  occupation : Option String
  company : Option String
  website : Option String
  emergencyContactName : Option String
  emergencyContactPhone : Option String
  profilePhoto : Option ProfilePhoto
  newsletterSubscription : Option Bool
  termsAccepted : Bool

/-- JavaScript `x || null` on an optional string field: the empty string
is falsy, so it collapses to `null`. -/
def orNull : Option String → Option String
  | some s => if s = "" then none else some s
  | none => none

/-- The `newUser` object literal assembled by `createUser`
(`DualStorage.js` lines 347-374): fresh `_id`, lower-cased email, hashed
password, `|| null` defaults on the optional fields, `=== true`
coercions on the two flags, and the fixed system fields. -/
def newUserOf (env : Env) (p : Payload) : FileUser :=
  { _id := env.newId
    name := p.name
    email := jsToLower p.email
    password := env.hashFn p.password
    phone := p.phone
    dateOfBirth := orNull p.dateOfBirth
    gender := orNull p.gender
    address := orNull p.address
    city := orNull p.city
    state := orNull p.state
    postalCode := orNull p.postalCode
    country := orNull p.country
    occupation := orNull p.occupation
    company := orNull p.company
    website := orNull p.website
    emergencyContactName := orNull p.emergencyContactName
    emergencyContactPhone := orNull p.emergencyContactPhone
    profilePhoto := p.profilePhoto
    newsletterSubscription := p.newsletterSubscription == some true
    termsAccepted := p.termsAccepted == true
    status := "active"
    emailVerified := false
    createdAt := env.now
    updatedAt := env.now
    lastLogin := none
    loginCount := 0 }

/-- `DualStorage.saveToFile` (lines 399-422): read `users.json`, throw
if a record with exactly this email string is already present, otherwise
append and write back.  The throw happens before the write, so on error
the file is untouched. -/
def saveToFile (userData : FileUser) (users : List FileUser) : Except String (List FileUser) :=
  if users.any (fun u => u.email == userData.email) then
    Except.error "User with this email already exists"
  else
    Except.ok (users ++ [userData])

/-- Validation the Mongoose `User` model runs at `save` time
(`User.js`): the four required string paths must be present and
non-empty, and the `termsAccepted` validator requires the value to be
exactly `true` (lines 143-152). -/
def mongoValidates (u : FileUser) : Bool :=
  u.name != "" && u.email != "" && u.password != "" && u.phone != "" && u.termsAccepted

/-- The document the Mongoose `User` model persists for the data
`saveToMongo` passes it: the coordinator's `_id` is deleted and MongoDB
assigns its own (line 428); the schema lower-cases the email (`User.js`
line 17); and the `pre('save')` hook hashes the (already hashed)
password again (`User.js` lines 193-205 -- a new document always has a
modified `password` path). -/
def mongoDocOf (env : Env) (u : FileUser) : MongoUser :=
  { _id := env.mongoObjectId
    name := u.name
    email := jsToLower u.email
    password := env.hashFn u.password
    phone := u.phone
    dateOfBirth := u.dateOfBirth
    gender := u.gender
    address := u.address
    city := u.city
    state := u.state
    postalCode := u.postalCode
    country := u.country
    occupation := u.occupation
    company := u.company
    website := u.website
    emergencyContactName := u.emergencyContactName
    emergencyContactPhone := u.emergencyContactPhone
    profilePhoto := u.profilePhoto
    newsletterSubscription := u.newsletterSubscription
    termsAccepted := u.termsAccepted
    status := u.status
    emailVerified := u.emailVerified
    createdAt := u.createdAt
    updatedAt := u.updatedAt
    lastLogin := u.lastLogin
    loginCount := u.loginCount }

/-- `DualStorage.saveToMongo` (lines 424-438): build the document
without the coordinator `_id` and `save()` it; any error (an insert
throw or a validation failure) is caught, logged and swallowed, leaving
the collection unchanged. -/
def saveToMongo (env : Env) (userData : FileUser) (mongoUsers : List MongoUser) :
    List MongoUser :=
  if env.mongoInsertFails then mongoUsers
  else if mongoValidates userData then mongoUsers ++ [mongoDocOf env userData]
  else mongoUsers

/-- `DualStorage.updateStats` (lines 495-515): bump
`totalRegistrations`, stamp `lastRegistration`, and recompute
`totalUsers` as the current length of `users.json`. -/
def updateStats (env : Env) (s : DualState) : DualState :=
  { s with stats :=
    { totalUsers := s.users.length
      totalRegistrations := s.stats.totalRegistrations + 1
      lastRegistration := some env.now
      createdAt := s.stats.createdAt } }

/-- One JavaScript value of the returned user object, enough to express
which keys the object carries. -/
inductive JsVal where
  | str : String → JsVal
  | nul : JsVal
  | bool : Bool → JsVal
  | num : Nat → JsVal
  | photo : ProfilePhoto → JsVal
deriving Repr, DecidableEq

/-- An optional string field serialized into the user object. -/
def optVal : Option String → JsVal
  | some s => JsVal.str s
  | none => JsVal.nul

/-- The `newUser` object as a JavaScript object: its key-value pairs in
source order (`DualStorage.js` lines 347-374). -/
def userObj (u : FileUser) : List (String × JsVal) :=
  [("_id", JsVal.str u._id),
   ("name", JsVal.str u.name),
   ("email", JsVal.str u.email),
   ("password", JsVal.str u.password),
   ("phone", JsVal.str u.phone),
   ("dateOfBirth", optVal u.dateOfBirth),
   ("gender", optVal u.gender),
   ("address", optVal u.address),
   ("city", optVal u.city),
   ("state", optVal u.state),
   ("postalCode", optVal u.postalCode),
   ("country", optVal u.country),
   ("occupation", optVal u.occupation),
   ("company", optVal u.company),
   ("website", optVal u.website),
   ("emergencyContactName", optVal u.emergencyContactName),
   ("emergencyContactPhone", optVal u.emergencyContactPhone),
   ("profilePhoto", match u.profilePhoto with
     | some ph => JsVal.photo ph
     | none => JsVal.nul),
   ("newsletterSubscription", JsVal.bool u.newsletterSubscription),
   ("termsAccepted", JsVal.bool u.termsAccepted),
   ("status", JsVal.str u.status),
   ("emailVerified", JsVal.bool u.emailVerified),
   ("createdAt", JsVal.str u.createdAt),
   ("updatedAt", JsVal.str u.updatedAt),
   ("lastLogin", optVal u.lastLogin),
   ("loginCount", JsVal.num u.loginCount)]

/-- `const \x7b password, ...userWithoutPassword \x7d = newUser`
(`DualStorage.js` line 390): the object with the `password` key
removed. -/
def userWithoutPassword (u : FileUser) : List (String × JsVal) :=
  (userObj u).filter (fun kv => kv.1 != "password")

/-- Property lookup on a modelled JavaScript object. -/
def jsGet (obj : List (String × JsVal)) (k : String) : Option JsVal :=
  (obj.find? (fun kv => kv.1 == k)).map (fun kv => kv.2)

/-- `DualStorage.createUser` (lines 340-397): hash the password, build
`newUser`, write it to the file store (a throw there propagates and
leaves all state untouched), then best-effort write to MongoDB when
connected, then recompute the stats; return the record without its
password. -/
def createUser (env : Env) (userData : Payload) (s : DualState) :
    Except String (List (String × JsVal)) × DualState :=
  let newUser := newUserOf env userData
  match saveToFile newUser s.users with
  | Except.error e => (Except.error e, s)
  | Except.ok users1 =>
    let s1 : DualState := { s with users := users1 }
    let s2 : DualState :=
      if s1.mongoConnected then
        { s1 with mongoUsers := saveToMongo env newUser s1.mongoUsers }
      else s1
    let s3 := updateStats env s2
    (Except.ok (userWithoutPassword newUser), s3)

/-- The storage-status view (`DualStorage.getStorageStatus`, lines
533-545). -/
structure StorageStatus where
  fileStatus : String
  mongoStatus : String
  mongoConnection : Bool
  mode : String
deriving Repr, DecidableEq

/-- `DualStorage.getStorageStatus` (lines 533-545). -/
def getStorageStatus (s : DualState) : StorageStatus :=
  { fileStatus := "active"
    mongoStatus := if s.mongoConnected then "active" else "unavailable"
    mongoConnection := s.mongoConnected
    mode := if s.mongoConnected then "dual" else "file-only" }

/-- The registration route's catch branch (`userRoutesDual.js` lines
895-910): a thrown message containing `already exists` is answered with
HTTP 409, anything else with 500. -/
def registerErrorStatus (msg : String) : Nat :=
  if jsIncludes msg "already exists" then 409 else 500

/-- A form field value as it can arrive in the multipart body: a native
boolean, a string, or a number. -/
inductive FormVal where
  | bool : Bool → FormVal
  | str : String → FormVal
  | num : Int → FormVal
deriving Repr, DecidableEq

/-- The `terms_accepted` branch of `preprocessFormData`
(`userRoutesDual.js` lines 800-806): a string becomes
`lowercased === "true" or value === "1"`, a number becomes
`value === 1`, a boolean is left alone. -/
def preprocessTerms : FormVal → FormVal
  | FormVal.str s => FormVal.bool (jsToLower s == "true" || s == "1")
  | FormVal.num n => FormVal.bool (n == 1)
  | FormVal.bool b => FormVal.bool b

/-- The `terms_accepted` rule of `registrationSchema`
(`userRoutesDual.js` lines 780-784): any boolean, one of the four
string literals, or the numbers 0/1; required, but its truth value is
not constrained. -/
def joiTermsValid : FormVal → Bool
  | FormVal.bool _ => true
  | FormVal.str s => s == "true" || s == "false" || s == "1" || s == "0"
  | FormVal.num n => n == 0 || n == 1

/-- The validated `terms_accepted` value the route copies into the
payload (`userRoutesDual.js` line 860); after `preprocessFormData` it is
always a boolean. -/
def termsOfForm : FormVal → Bool
  | FormVal.bool b => b
  | FormVal.str _ => false
  | FormVal.num _ => false

/-- Outcome of the migration loop for one file record
(`migrate.js` lines 60-108). -/
inductive MigOutcome where
  | skipped : MigOutcome
  | migrated : MigOutcome
  | errored : MigOutcome
deriving Repr, DecidableEq

/-- `User.findOne(\x7b email \x7d)` existence test used by the migration
loop (`migrate.js` line 63); the schema's `lowercase` setter applies to
the queried value. -/
def hasEmail (ms : List MongoUser) (e : String) : Bool :=
  ms.any (fun m => m.email == e)

/-- The document `migrateUsers` inserts for one file record
(`migrate.js` lines 72-100): every field is copied, the schema
lower-cases the email, the `pre('save')` hook hashes the already-hashed
password once more, and MongoDB assigns the `_id`. -/
def migDoc (hashFn : String → String) (oid : String) (fu : FileUser) : MongoUser :=
  { _id := oid
    name := fu.name
    email := jsToLower fu.email
    password := hashFn fu.password
    phone := fu.phone
    dateOfBirth := fu.dateOfBirth
    gender := fu.gender
    address := fu.address
    city := fu.city
    state := fu.state
    postalCode := fu.postalCode
    country := fu.country
    occupation := fu.occupation
    company := fu.company
    website := fu.website
    emergencyContactName := fu.emergencyContactName
    emergencyContactPhone := fu.emergencyContactPhone
    profilePhoto := fu.profilePhoto
    newsletterSubscription := fu.newsletterSubscription
    termsAccepted := fu.termsAccepted
    status := fu.status
    emailVerified := fu.emailVerified
    createdAt := fu.createdAt
    updatedAt := fu.updatedAt
    lastLogin := fu.lastLogin
    loginCount := fu.loginCount }

/-- The per-record loop of `DataMigration.migrateUsers` (`migrate.js`
lines 60-108): for each file record, skip when a MongoDB document with
the same email already exists, otherwise try to insert.  `ok` abstracts
whether the `save()` of that record succeeds (Mongoose validation is a
deterministic function of the record; a throw is caught and counted as
an error).  Returns the per-record outcomes in file order together with
the final MongoDB collection. -/
def migRun (ok : FileUser → Bool) (hashFn : String → String) (oidOf : FileUser → String) :
    List FileUser → List MongoUser → List MigOutcome × List MongoUser
  | [], ms => ([], ms)
  | fu :: rest, ms =>
    if hasEmail ms (jsToLower fu.email) then
      let r := migRun ok hashFn oidOf rest ms
      (MigOutcome.skipped :: r.1, r.2)
    else if ok fu then
      let r := migRun ok hashFn oidOf rest (ms ++ [migDoc hashFn (oidOf fu) fu])
      (MigOutcome.migrated :: r.1, r.2)
    else
      let r := migRun ok hashFn oidOf rest ms
      (MigOutcome.errored :: r.1, r.2)

/-- The summary `migrateUsers` prints (`migrate.js` lines 110-114). -/
structure MigSummary where
  migratedCount : Nat
  skippedCount : Nat
  errorCount : Nat
  totalInFile : Nat
deriving Repr, DecidableEq

/-- `DataMigration.migrateUsers` (`migrate.js` lines 39-118): abort when
the MongoDB connection fails, otherwise run the per-record loop and
report the counters. -/
def migrateUsers (connected : Bool) (ok : FileUser → Bool) (hashFn : String → String)
    (oidOf : FileUser → String) (fileUsers : List FileUser) (mongoUsers : List MongoUser) :
    Option (MigSummary × List MongoUser) :=
  if connected then
    let r := migRun ok hashFn oidOf fileUsers mongoUsers
    some ({ migratedCount := r.1.count MigOutcome.migrated
            skippedCount := r.1.count MigOutcome.skipped
            errorCount := r.1.count MigOutcome.errored
            totalInFile := fileUsers.length }, r.2)
  else none

/-- The file-format record `syncFromMongoToFile` writes for one MongoDB
document (`migrate.js` lines 139-166): every field copied, `_id`
stringified, dates back to ISO strings. -/
def mongoToFileUser (m : MongoUser) : FileUser :=
  { _id := m._id
    name := m.name
    email := m.email
    password := m.password
    phone := m.phone
    dateOfBirth := m.dateOfBirth
    gender := m.gender
    address := m.address
    city := m.city
    state := m.state
    postalCode := m.postalCode
    country := m.country
    occupation := m.occupation
    company := m.company
    website := m.website
    emergencyContactName := m.emergencyContactName
    emergencyContactPhone := m.emergencyContactPhone
    profilePhoto := m.profilePhoto
    newsletterSubscription := m.newsletterSubscription
    termsAccepted := m.termsAccepted
    status := m.status
    emailVerified := m.emailVerified
    createdAt := m.createdAt
    updatedAt := m.updatedAt
    lastLogin := m.lastLogin
    loginCount := m.loginCount }

/-- `DataMigration.syncFromMongoToFile` (`migrate.js` lines 120-178):
abort when the connection fails; otherwise read the whole MongoDB
collection, convert it, and overwrite `users.json` with the converted
list (the current file contents are read on line 136 but never used). -/
def syncFromMongoToFile (connected : Bool) (mongoUsers : List MongoUser)
    (fileUsers : List FileUser) : List FileUser :=
  if connected then mongoUsers.map mongoToFileUser else fileUsers

/-- Run a list of registrations through `createUser` in sequence,
stopping at the first failure (models N consecutive successful calls
into the live route). -/
def runCreates : List (Env × Payload) → DualState → Option DualState
  | [], s => some s
  | (env, p) :: rest, s =>
    match createUser env p s with
    | (Except.ok _, s1) => runCreates rest s1
    | (Except.error _, _) => none

/-- Deterministic stand-in for `bcrypt.hash(s, salt)` with a cost-12
salt: keeps the essential properties that the output is a fresh
bcrypt-format string different from (and longer than) its input. -/
def bcryptModel : String → String := fun s => "$2b$12$" ++ s

/-- A registration payload with the four required fields and every
optional field absent. -/
def basePayload (nm em pw ph : String) : Payload :=
  { name := nm
    email := em
    password := pw
    phone := ph
    dateOfBirth := none
    gender := none
    address := none
    city := none
    state := none
    postalCode := none
    country := none
    occupation := none
    company := none
    website := none
    emergencyContactName := none
    emergencyContactPhone := none
    profilePhoto := none
    newsletterSubscription := none
    termsAccepted := true }

/-- A sample environment for one `createUser` call whose MongoDB insert
would succeed. -/
def envEx (id oid : String) : Env :=
  { hashFn := bcryptModel
    newId := id
    now := "2026-01-01T00:00:00.000Z"
    mongoInsertFails := false
    mongoObjectId := oid }

/-- A sample environment whose MongoDB insert throws. -/
def envFail (id oid : String) : Env :=
  { hashFn := bcryptModel
    newId := id
    now := "2026-01-01T00:00:00.000Z"
    mongoInsertFails := true
    mongoObjectId := oid }

/-- A store state already holding the user `jane@x.com`. -/
def stateWithJane (now : String) : DualState :=
  { users := [newUserOf (envEx "uuid-0" "oid-0")
      (basePayload "Jane Doe" "jane@x.com" "secret1" "+15551234")]
    stats := { totalUsers := 1
               totalRegistrations := 1
               lastRegistration := some now
               createdAt := now }
    mongoConnected := false
    mongoUsers := [] }

theorem newUserOf_email (env : Env) (p : Payload) :
    (newUserOf env p).email = jsToLower p.email := rfl

theorem createUser_of_dup (env : Env) (p : Payload) (s : DualState)
    (h : s.users.any (fun u => u.email == jsToLower p.email) = true) :
    createUser env p s = (Except.error "User with this email already exists", s) := by
  unfold createUser saveToFile
  simp only [newUserOf_email, h, if_true]

theorem createUser_of_fresh (env : Env) (p : Payload) (s : DualState)
    (h : s.users.any (fun u => u.email == jsToLower p.email) = false) :
    createUser env p s =
      (Except.ok (userWithoutPassword (newUserOf env p)),
       updateStats env
        (if s.mongoConnected then
          { s with users := s.users ++ [newUserOf env p]
                   mongoUsers := saveToMongo env (newUserOf env p) s.mongoUsers }
         else { s with users := s.users ++ [newUserOf env p] })) := by
  unfold createUser saveToFile
  simp only [newUserOf_email, h, Bool.false_eq_true, if_false]

theorem createUser_mongoConnected (env : Env) (p : Payload) (s : DualState) :
    (createUser env p s).2.mongoConnected = s.mongoConnected := by
  by_cases h : s.users.any (fun u => u.email == jsToLower p.email) = true
  · rw [createUser_of_dup env p s h]
  · rw [createUser_of_fresh env p s (by simpa using h)]
    unfold updateStats
    split <;> rfl

/-- C6: for every valid payload whose email is not yet present in the
Primary (file) Store, `DualStorage.createUser` returns a record whose
`email` field equals the lower-cased input email, and the returned
object carries no `password` key. -/
theorem createUser_fresh_email_view (env : Env) (p : Payload) (s : DualState)
    (hfresh : s.users.any (fun u => u.email == jsToLower p.email) = false) :
    (createUser env p s).1 = Except.ok (userWithoutPassword (newUserOf env p)) ∧
    jsGet (userWithoutPassword (newUserOf env p)) "email" =
      some (JsVal.str (jsToLower p.email)) ∧
    jsGet (userWithoutPassword (newUserOf env p)) "password" = none := by
  refine ⟨?_, rfl, rfl⟩
  rw [createUser_of_fresh env p s hfresh]

/-- Witness for C6 at a concrete fresh registration. -/
theorem createUser_fresh_email_view_witness :
    ([] : List FileUser).any
        (fun u => u.email == jsToLower "JANE@X.COM") = false ∧
    (createUser (envEx "uuid-1" "oid-1")
        (basePayload "Jane Doe" "JANE@X.COM" "secret1" "+15551234")
        (initState "t0" false)).1 =
      Except.ok (userWithoutPassword (newUserOf (envEx "uuid-1" "oid-1")
        (basePayload "Jane Doe" "JANE@X.COM" "secret1" "+15551234"))) ∧
    jsGet (userWithoutPassword (newUserOf (envEx "uuid-1" "oid-1")
        (basePayload "Jane Doe" "JANE@X.COM" "secret1" "+15551234"))) "email" =
      some (JsVal.str (jsToLower "JANE@X.COM")) ∧
    jsGet (userWithoutPassword (newUserOf (envEx "uuid-1" "oid-1")
        (basePayload "Jane Doe" "JANE@X.COM" "secret1" "+15551234"))) "password" = none :=
  ⟨rfl, createUser_fresh_email_view (envEx "uuid-1" "oid-1")
    (basePayload "Jane Doe" "JANE@X.COM" "secret1" "+15551234")
    (initState "t0" false) rfl⟩

/-- C2: a failing (or skipped) Secondary write never surfaces:
`createUser` on a fresh email returns the created record for every
value of `mongoConnected` and `mongoInsertFails`, and when the
Secondary Store is unreachable the storage-status view of the resulting
state reports mode `file-only`. -/
theorem createUser_absorbs_secondary_failure (env : Env) (p : Payload) (s : DualState)
    (hfresh : s.users.any (fun u => u.email == jsToLower p.email) = false) :
    (createUser env p s).1 = Except.ok (userWithoutPassword (newUserOf env p)) ∧
    (createUser env p s).2.users = s.users ++ [newUserOf env p] ∧
    (s.mongoConnected = false →
      (getStorageStatus (createUser env p s).2).mode = "file-only") := by
  refine ⟨?_, ?_, ?_⟩
  · rw [createUser_of_fresh env p s hfresh]
  · rw [createUser_of_fresh env p s hfresh]
    unfold updateStats
    split <;> rfl
  · intro hmc
    have h2 := createUser_mongoConnected env p s
    unfold getStorageStatus
    rw [h2, hmc]
    rfl

/-- Witness for C2: a connected Secondary Store whose insert throws is
absorbed, and a disconnected one yields mode `file-only`. -/
theorem createUser_absorbs_secondary_failure_witness :
    ([] : List FileUser).any
        (fun u => u.email == jsToLower "jane@x.com") = false ∧
    ((createUser (envFail "uuid-2" "oid-2")
        (basePayload "Jane Doe" "jane@x.com" "secret1" "+15551234")
        (initState "t0" false)).1 =
      Except.ok (userWithoutPassword (newUserOf (envFail "uuid-2" "oid-2")
        (basePayload "Jane Doe" "jane@x.com" "secret1" "+15551234"))) ∧
    (createUser (envFail "uuid-2" "oid-2")
        (basePayload "Jane Doe" "jane@x.com" "secret1" "+15551234")
        (initState "t0" false)).2.users =
      ([] : List FileUser) ++ [newUserOf (envFail "uuid-2" "oid-2")
        (basePayload "Jane Doe" "jane@x.com" "secret1" "+15551234")] ∧
    ((initState "t0" false).mongoConnected = false →
      (getStorageStatus (createUser (envFail "uuid-2" "oid-2")
        (basePayload "Jane Doe" "jane@x.com" "secret1" "+15551234")
        (initState "t0" false)).2).mode = "file-only")) :=
  ⟨rfl, createUser_absorbs_secondary_failure (envFail "uuid-2" "oid-2")
    (basePayload "Jane Doe" "jane@x.com" "secret1" "+15551234")
    (initState "t0" false) rfl⟩

/-- C1: when the payload's email already exists case-insensitively in
the file store (whose reachable states hold only lower-case emails,
cf. the lower-case invariant), `createUser` throws the distinct
`already exists` error, the whole state -- in particular the user
collection -- is unchanged, and the route maps that message to HTTP 409
rather than the generic 500; all of this for any Secondary Store
state. -/
theorem createUser_conflict_on_dup_email (env : Env) (p : Payload) (s : DualState)
    (hlow : ∀ u ∈ s.users, jsToLower u.email = u.email)
    (hdup : ∃ u ∈ s.users, jsToLower u.email = jsToLower p.email) :
    createUser env p s = (Except.error "User with this email already exists", s) ∧
    registerErrorStatus "User with this email already exists" = 409 := by
  obtain ⟨u, hu, he⟩ := hdup
  have hany : s.users.any (fun v => v.email == jsToLower p.email) = true := by
    refine List.any_eq_true.mpr ⟨u, hu, ?_⟩
    rw [beq_iff_eq, ← hlow u hu, he]
  exact ⟨createUser_of_dup env p s hany, by decide⟩

/-- Witness for C1: re-registering `JANE@X.COM` over a store already
holding `jane@x.com` conflicts and leaves the store unchanged. -/
theorem createUser_conflict_on_dup_email_witness :
    (∀ u ∈ (stateWithJane "t1").users, jsToLower u.email = u.email) ∧
    (∃ u ∈ (stateWithJane "t1").users,
      jsToLower u.email = jsToLower "JANE@X.COM") ∧
    createUser (envEx "uuid-3" "oid-3")
        (basePayload "Jane Doe" "JANE@X.COM" "secret1" "+15551234")
        (stateWithJane "t1") =
      (Except.error "User with this email already exists", stateWithJane "t1") ∧
    registerErrorStatus "User with this email already exists" = 409 :=
  ⟨by decide, by decide,
    createUser_conflict_on_dup_email (envEx "uuid-3" "oid-3")
      (basePayload "Jane Doe" "JANE@X.COM" "secret1" "+15551234")
      (stateWithJane "t1") (by decide) (by decide)⟩

/-- C10: every record `createUser` adds to the file store has an
all-lower-case email, so the lower-case invariant is preserved; and on
any store state satisfying that invariant, `saveToFile`'s exact-string
duplicate check against the lower-cased incoming email is equivalent to
case-insensitive email existence. -/
theorem createUser_lowercase_email_invariant (env : Env) (p : Payload) (s : DualState)
    (hlow : ∀ u ∈ s.users, jsToLower u.email = u.email) :
    (∀ u ∈ (createUser env p s).2.users, jsToLower u.email = u.email) ∧
    (∀ e, (s.users.any (fun u => u.email == jsToLower e)) = true ↔
      ∃ u ∈ s.users, jsToLower u.email = jsToLower e) := by
  constructor
  · by_cases h : s.users.any (fun u => u.email == jsToLower p.email) = true
    · rw [createUser_of_dup env p s h]
      exact hlow
    · rw [createUser_of_fresh env p s (by simpa using h)]
      have husers :
          (updateStats env
            (if s.mongoConnected then
              { s with users := s.users ++ [newUserOf env p]
                       mongoUsers := saveToMongo env (newUserOf env p) s.mongoUsers }
             else { s with users := s.users ++ [newUserOf env p] })).users =
            s.users ++ [newUserOf env p] := by
        unfold updateStats
        split <;> rfl
      rw [husers]
      intro u hu
      rcases List.mem_append.mp hu with hmem | hmem
      · exact hlow u hmem
      · rcases List.mem_singleton.mp hmem with rfl
        rw [newUserOf_email]
        exact jsToLower_idem p.email
  · intro e
    rw [List.any_eq_true]
    constructor
    · rintro ⟨u, hu, hbe⟩
      refine ⟨u, hu, ?_⟩
      rw [beq_iff_eq] at hbe
      rw [hbe, jsToLower_idem]
    · rintro ⟨u, hu, he⟩
      exact ⟨u, hu, beq_iff_eq.mpr (by rw [← hlow u hu, he])⟩

/-- Witness for C10 on a one-user store. -/
theorem createUser_lowercase_email_invariant_witness :
    (∀ u ∈ (stateWithJane "t1").users, jsToLower u.email = u.email) ∧
    (∀ u ∈ (createUser (envEx "uuid-4" "oid-4")
        (basePayload "Bob" "BOB@Y.COM" "secret2" "+15550000")
        (stateWithJane "t1")).2.users, jsToLower u.email = u.email) ∧
    (((stateWithJane "t1").users.any
        (fun u => u.email == jsToLower "JANE@X.COM")) = true ↔
      ∃ u ∈ (stateWithJane "t1").users,
        jsToLower u.email = jsToLower "JANE@X.COM") :=
  ⟨by decide,
    (createUser_lowercase_email_invariant (envEx "uuid-4" "oid-4")
      (basePayload "Bob" "BOB@Y.COM" "secret2" "+15550000")
      (stateWithJane "t1") (by decide)).1,
    (createUser_lowercase_email_invariant (envEx "uuid-4" "oid-4")
      (basePayload "Bob" "BOB@Y.COM" "secret2" "+15550000")
      (stateWithJane "t1") (by decide)).2 "JANE@X.COM"⟩

/-- C3 (code evaluated at the failing input): the coordinator hashes
once, but the Mongoose `pre('save')` hook hashes the already-hashed
password again, so the file store holds `hash(pw)` while the MongoDB
document holds `hash(hash(pw))` -- two different values, contradicting
the identical-hash claim. -/
theorem mongo_store_rehashes_password :
    ((createUser (envEx "uuid-5" "oid-5")
        (basePayload "Jane Doe" "jane@x.com" "secret1" "+15551234")
        (initState "t0" true)).2.users.map (fun u => u.password) =
      [bcryptModel "secret1"]) ∧
    ((createUser (envEx "uuid-5" "oid-5")
        (basePayload "Jane Doe" "jane@x.com" "secret1" "+15551234")
        (initState "t0" true)).2.mongoUsers.map (fun m => m.password) =
      [bcryptModel (bcryptModel "secret1")]) ∧
    bcryptModel (bcryptModel "secret1") ≠ bcryptModel "secret1" := by
  decide

/-- Counterexample to C4: `saveToMongo` deletes the coordinator's `_id`
before inserting, so after a successful dual write the file record
carries the generated `uuid-6` while the MongoDB document carries the
store-assigned `oid-6`; the identifier is not shared. -/
theorem mongo_record_id_differs :
    ((createUser (envEx "uuid-6" "oid-6")
        (basePayload "Jane Doe" "jane@x.com" "secret1" "+15551234")
        (initState "t0" true)).2.users.map (fun u => u._id) = ["uuid-6"]) ∧
    ((createUser (envEx "uuid-6" "oid-6")
        (basePayload "Jane Doe" "jane@x.com" "secret1" "+15551234")
        (initState "t0" true)).2.mongoUsers.map (fun m => m._id) = ["oid-6"]) ∧
    ("oid-6" : String) ≠ "uuid-6" := by
  decide

/-- C4 as amended: for every successful dual write the Secondary Store
document does not reuse the coordinator's identifier -- `saveToMongo`
deletes `_id` and MongoDB assigns its own -- while the (lower-cased)
email is shared between the two records. -/
theorem saveToMongo_own_id_shared_email (env : Env) (p : Payload) (s : DualState)
    (hfresh : s.users.any (fun u => u.email == jsToLower p.email) = false)
    (hmc : s.mongoConnected = true)
    (hio : env.mongoInsertFails = false)
    (hval : mongoValidates (newUserOf env p) = true) :
    (createUser env p s).2.mongoUsers =
      s.mongoUsers ++ [mongoDocOf env (newUserOf env p)] ∧
    (mongoDocOf env (newUserOf env p))._id = env.mongoObjectId ∧
    (mongoDocOf env (newUserOf env p)).email = (newUserOf env p).email := by
  refine ⟨?_, rfl, ?_⟩
  · rw [createUser_of_fresh env p s hfresh, hmc]
    unfold updateStats saveToMongo
    rw [hio]
    simp only [Bool.false_eq_true, if_false, hval, if_true]
  · show jsToLower (newUserOf env p).email = (newUserOf env p).email
    rw [newUserOf_email]
    exact jsToLower_idem p.email

/-- Witness for the amended C4 at a concrete dual write. -/
theorem saveToMongo_own_id_shared_email_witness :
    (createUser (envEx "uuid-7" "oid-7")
        (basePayload "Jane Doe" "jane@x.com" "secret1" "+15551234")
        (initState "t0" true)).2.mongoUsers =
      ([] : List MongoUser) ++ [mongoDocOf (envEx "uuid-7" "oid-7")
        (newUserOf (envEx "uuid-7" "oid-7")
          (basePayload "Jane Doe" "jane@x.com" "secret1" "+15551234"))] ∧
    (mongoDocOf (envEx "uuid-7" "oid-7")
      (newUserOf (envEx "uuid-7" "oid-7")
        (basePayload "Jane Doe" "jane@x.com" "secret1" "+15551234")))._id =
      (envEx "uuid-7" "oid-7").mongoObjectId ∧
    (mongoDocOf (envEx "uuid-7" "oid-7")
      (newUserOf (envEx "uuid-7" "oid-7")
        (basePayload "Jane Doe" "jane@x.com" "secret1" "+15551234"))).email =
      (newUserOf (envEx "uuid-7" "oid-7")
        (basePayload "Jane Doe" "jane@x.com" "secret1" "+15551234")).email :=
  saveToMongo_own_id_shared_email (envEx "uuid-7" "oid-7")
    (basePayload "Jane Doe" "jane@x.com" "secret1" "+15551234")
    (initState "t0" true) rfl rfl rfl (by decide)

/-- C5 (code evaluated at the failing input): the string `"false"`
passes `preprocessFormData` and the `registrationSchema` rule for
`terms_accepted` (which requires the field but not its truth), reaches
the coordinator as the boolean `false`, and `createUser` persists a
file-store record with `termsAccepted = false` -- contradicting the
claim that no such record can be created. -/
theorem terms_accepted_false_record_created :
    joiTermsValid (preprocessTerms (FormVal.str "false")) = true ∧
    termsOfForm (preprocessTerms (FormVal.str "false")) = false ∧
    ((createUser (envEx "uuid-8" "oid-8")
        { basePayload "Jane Doe" "jane@x.com" "secret1" "+15551234" with
            termsAccepted := termsOfForm (preprocessTerms (FormVal.str "false")) }
        (initState "t0" false)).2.users.map (fun u => u.termsAccepted) = [false]) := by
  decide

/-- A file-store record with the four required fields and defaults
elsewhere. -/
def mkFileUser (id nm em pw ph : String) : FileUser :=
  { _id := id
    name := nm
    email := em
    password := pw
    phone := ph
    dateOfBirth := none
    gender := none
    address := none
    city := none
    state := none
    postalCode := none
    country := none
    occupation := none
    company := none
    website := none
    emergencyContactName := none
    emergencyContactPhone := none
    profilePhoto := none
    newsletterSubscription := false
    termsAccepted := true
    status := "active"
    emailVerified := false
    createdAt := "t0"
    updatedAt := "t0"
    lastLogin := none
    loginCount := 0 }

/-- A MongoDB document with the four required fields and defaults
elsewhere. -/
def mkMongoUser (id nm em pw ph : String) : MongoUser :=
  { _id := id
    name := nm
    email := em
    password := pw
    phone := ph
    dateOfBirth := none
    gender := none
    address := none
    city := none
    state := none
    postalCode := none
    country := none
    occupation := none
    company := none
    website := none
    emergencyContactName := none
    emergencyContactPhone := none
    profilePhoto := none
    newsletterSubscription := false
    termsAccepted := true
    status := "active"
    emailVerified := false
    createdAt := "t0"
    updatedAt := "t0"
    lastLogin := none
    loginCount := 0 }

/-- Record A, present in both stores. -/
def mongoA : MongoUser := mkMongoUser "mid-a" "Alice" "alice@x.com" "ha" "+10000000"

/-- Record B, present only in the Secondary Store. -/
def mongoB : MongoUser := mkMongoUser "mid-b" "Bob" "bob@x.com" "hb" "+20000000"

/-- Record A as it sits in the file store. -/
def userA : FileUser := mkFileUser "mid-a" "Alice" "alice@x.com" "ha" "+10000000"

/-- Record C, present only in the file store. -/
def userC : FileUser := mkFileUser "fid-c" "Carol" "carol@x.com" "hc" "+30000000"

/-- Two concrete registrations for the stats witness. -/
def exInputs : List (Env × Payload) :=
  [(envEx "uuid-9" "oid-9", basePayload "Alice" "alice@x.com" "pw-alice" "+10000000"),
   (envEx "uuid-10" "oid-10", basePayload "Bob" "bob@x.com" "pw-bob" "+20000000")]

/-- The state those two registrations produce. -/
def exFinal : DualState :=
  (runCreates exInputs (initState "t0" false)).getD (initState "t0" false)

/-- C8: a connected `syncFromMongoToFile` run replaces `users.json`
wholesale with the serialized MongoDB collection, so any file record
not corresponding to a MongoDB document is lost. -/
theorem syncFromMongoToFile_overwrites (mongoUsers : List MongoUser)
    (fileUsers : List FileUser) :
    syncFromMongoToFile true mongoUsers fileUsers = mongoUsers.map mongoToFileUser ∧
    ∀ c ∈ fileUsers, (∀ m ∈ mongoUsers, mongoToFileUser m ≠ c) →
      c ∉ syncFromMongoToFile true mongoUsers fileUsers := by
  refine ⟨rfl, ?_⟩
  intro c _ hnot hmem
  have hmem2 : c ∈ mongoUsers.map mongoToFileUser := hmem
  obtain ⟨m, hm, he⟩ := List.mem_map.mp hmem2
  exact hnot m hm he

/-- Witness for C8: with the Secondary Store holding A,B and the file
holding A,C, the synced file is exactly the converted A,B and the
file-only record C is gone. -/
theorem syncFromMongoToFile_overwrites_witness :
    syncFromMongoToFile true [mongoA, mongoB] [userA, userC] =
      ([mongoA, mongoB].map mongoToFileUser) ∧
    userC ∉ syncFromMongoToFile true [mongoA, mongoB] [userA, userC] :=
  ⟨(syncFromMongoToFile_overwrites [mongoA, mongoB] [userA, userC]).1,
    (syncFromMongoToFile_overwrites [mongoA, mongoB] [userA, userC]).2 userC
      (by decide) (by decide)⟩

theorem createUser_ok_totals (env : Env) (p : Payload) (s : DualState) (r : _)
    (s1 : DualState) (h : createUser env p s = (Except.ok r, s1)) :
    s1.users = s.users ++ [newUserOf env p] ∧
    s1.stats.totalUsers = s1.users.length := by
  by_cases hd : s.users.any (fun u => u.email == jsToLower p.email) = true
  · rw [createUser_of_dup env p s hd] at h
    exact absurd (congrArg Prod.fst h) (by simp)
  · rw [createUser_of_fresh env p s (by simpa using hd)] at h
    have hs1 : s1 = updateStats env
        (if s.mongoConnected then
          { s with users := s.users ++ [newUserOf env p]
                   mongoUsers := saveToMongo env (newUserOf env p) s.mongoUsers }
         else { s with users := s.users ++ [newUserOf env p] }) :=
      (congrArg Prod.snd h).symm
    subst hs1
    unfold updateStats
    constructor
    · split <;> rfl
    · split <;> rfl

/-- After a successful run of creates, `totalUsers` tracks the file
collection's length, which grew by exactly the number of creates. -/
theorem runCreates_totals : ∀ (inputs : List (Env × Payload)) (s s1 : DualState),
    runCreates inputs s = some s1 →
    s.stats.totalUsers = s.users.length →
    s1.stats.totalUsers = s1.users.length ∧
    s1.users.length = s.users.length + inputs.length := by
  intro inputs
  induction inputs with
  | nil =>
    intro s s1 h hinv
    cases h
    exact ⟨hinv, rfl⟩
  | cons ep rest ih =>
    intro s s1 h hinv
    obtain ⟨env, p⟩ := ep
    unfold runCreates at h
    cases hcu : createUser env p s with
    | mk res s2 =>
      rw [hcu] at h
      cases res with
      | error e => exact absurd h (by simp)
      | ok r =>
        simp only at h
        obtain ⟨husers, htot⟩ := createUser_ok_totals env p s r s2 hcu
        obtain ⟨h1, h2⟩ := ih s2 s1 h htot
        refine ⟨h1, ?_⟩
        rw [h2, husers]
        simp only [List.length_append, List.length_cons, List.length_nil]
        omega

/-- C9: after N successful `createUser` calls from the freshly
initialized empty state, the persisted `StatsSnapshot.totalUsers`
equals the file store's record count, which equals N. -/
theorem stats_totalUsers_matches_store (inputs : List (Env × Payload))
    (now : String) (mc : Bool) (s1 : DualState)
    (h : runCreates inputs (initState now mc) = some s1) :
    s1.stats.totalUsers = s1.users.length ∧ s1.users.length = inputs.length := by
  have hr := runCreates_totals inputs (initState now mc) s1 h rfl
  simpa [initState, initialStats] using hr

/-- Witness for C9: two concrete successful creates yield
`totalUsers = 2 = |users.json|`. -/
theorem stats_totalUsers_matches_store_witness :
    runCreates exInputs (initState "t0" false) = some exFinal ∧
    exFinal.stats.totalUsers = exFinal.users.length ∧
    exFinal.users.length = 2 :=
  ⟨by decide,
    (stats_totalUsers_matches_store exInputs "t0" false exFinal (by decide)).1,
    (stats_totalUsers_matches_store exInputs "t0" false exFinal (by decide)).2⟩

/-- A `save()` model for the migration witness: every record is
accepted. -/
def okEx : FileUser → Bool := fun _ => true

/-- ObjectId generator for the migration witness. -/
def oidEx : FileUser → String := fun u => "oid-" ++ u._id

/-- Result of the first concrete migration run. -/
def migFirst : MigSummary × List MongoUser :=
  (migrateUsers true okEx bcryptModel oidEx [userA, userC] []).getD
    (⟨0, 0, 0, 0⟩, [])

theorem hasEmail_append (ms l : List MongoUser) (e : String) :
    hasEmail (ms ++ l) e = (hasEmail ms e || hasEmail l e) := by
  simp [hasEmail, List.any_append]

theorem migDoc_email (hashFn : String → String) (oid : String) (fu : FileUser) :
    (migDoc hashFn oid fu).email = jsToLower fu.email := rfl

theorem migRun_cons_skip (ok : FileUser → Bool) (hashFn : String → String)
    (oidOf : FileUser → String) (fu : FileUser) (rest : List FileUser)
    (ms : List MongoUser) (h : hasEmail ms (jsToLower fu.email) = true) :
    migRun ok hashFn oidOf (fu :: rest) ms =
      (MigOutcome.skipped :: (migRun ok hashFn oidOf rest ms).1,
       (migRun ok hashFn oidOf rest ms).2) := by
  simp only [migRun]
  rw [if_pos h]

theorem migRun_cons_migrate (ok : FileUser → Bool) (hashFn : String → String)
    (oidOf : FileUser → String) (fu : FileUser) (rest : List FileUser)
    (ms : List MongoUser) (h : hasEmail ms (jsToLower fu.email) = false)
    (hok : ok fu = true) :
    migRun ok hashFn oidOf (fu :: rest) ms =
      (MigOutcome.migrated ::
        (migRun ok hashFn oidOf rest (ms ++ [migDoc hashFn (oidOf fu) fu])).1,
       (migRun ok hashFn oidOf rest (ms ++ [migDoc hashFn (oidOf fu) fu])).2) := by
  simp only [migRun]
  rw [if_neg (by simp [h]), if_pos hok]

theorem migRun_cons_error (ok : FileUser → Bool) (hashFn : String → String)
    (oidOf : FileUser → String) (fu : FileUser) (rest : List FileUser)
    (ms : List MongoUser) (h : hasEmail ms (jsToLower fu.email) = false)
    (hok : ok fu = false) :
    migRun ok hashFn oidOf (fu :: rest) ms =
      (MigOutcome.errored :: (migRun ok hashFn oidOf rest ms).1,
       (migRun ok hashFn oidOf rest ms).2) := by
  simp only [migRun]
  rw [if_neg (by simp [h]), if_neg (by simp [hok])]

/-- The MongoDB collection only gains documents during a migration run:
an email present at the start is present at the end. -/
theorem migRun_mongo_mono (ok : FileUser → Bool) (hashFn : String → String)
    (oidOf : FileUser → String) :
    ∀ (fus : List FileUser) (ms : List MongoUser) (e : String),
      hasEmail ms e = true →
      hasEmail (migRun ok hashFn oidOf fus ms).2 e = true := by
  intro fus
  induction fus with
  | nil => intro ms e h; exact h
  | cons fu rest ih =>
    intro ms e h
    by_cases h1 : hasEmail ms (jsToLower fu.email) = true
    · rw [migRun_cons_skip ok hashFn oidOf fu rest ms h1]
      exact ih ms e h
    · have h1f : hasEmail ms (jsToLower fu.email) = false := by simpa using h1
      by_cases h2 : ok fu = true
      · rw [migRun_cons_migrate ok hashFn oidOf fu rest ms h1f h2]
        refine ih _ e ?_
        rw [hasEmail_append, h, Bool.true_or]
      · have h2f : ok fu = false := by simpa using h2
        rw [migRun_cons_error ok hashFn oidOf fu rest ms h1f h2f]
        exact ih ms e h

/-- Two-run simulation: if the second run starts from a collection that
already contains every email present in the first run's start state and
every email present in the first run's final state, then the second run
migrates nothing and skips at every position where the first run
migrated. -/
theorem migRun_second_run (ok : FileUser → Bool) (hashFn : String → String)
    (oidOf : FileUser → String) :
    ∀ (fus : List FileUser) (ms1 ms2 : List MongoUser),
      (∀ e, hasEmail ms1 e = true → hasEmail ms2 e = true) →
      (∀ e, hasEmail (migRun ok hashFn oidOf fus ms1).2 e = true →
        hasEmail ms2 e = true) →
      (migRun ok hashFn oidOf fus ms2).1.count MigOutcome.migrated = 0 ∧
      ∀ i : Nat, (migRun ok hashFn oidOf fus ms1).1[i]? = some MigOutcome.migrated →
        (migRun ok hashFn oidOf fus ms2).1[i]? = some MigOutcome.skipped := by
  intro fus
  induction fus with
  | nil =>
    intro ms1 ms2 h1 h2
    exact ⟨rfl, fun i hi => by simp [migRun] at hi⟩
  | cons fu rest ih =>
    intro ms1 ms2 h1 h2
    by_cases ha : hasEmail ms1 (jsToLower fu.email) = true
    · -- run 1 skipped fu, so does run 2
      have hb : hasEmail ms2 (jsToLower fu.email) = true := h1 _ ha
      rw [migRun_cons_skip ok hashFn oidOf fu rest ms1 ha] at h2 ⊢
      rw [migRun_cons_skip ok hashFn oidOf fu rest ms2 hb]
      obtain ⟨c0, cind⟩ := ih ms1 ms2 h1 h2
      refine ⟨?_, ?_⟩
      · simpa [List.count_cons] using c0
      · intro i hi
        cases i with
        | zero => simp at hi
        | succ j =>
          simp only [List.getElem?_cons_succ] at hi ⊢
          exact cind j hi
    · have haf : hasEmail ms1 (jsToLower fu.email) = false := by simpa using ha
      by_cases hok : ok fu = true
      · -- run 1 migrated fu, so its email reached the final state and run 2 skips
        rw [migRun_cons_migrate ok hashFn oidOf fu rest ms1 haf hok] at h2 ⊢
        have hfin : hasEmail
            (migRun ok hashFn oidOf rest
              (ms1 ++ [migDoc hashFn (oidOf fu) fu])).2 (jsToLower fu.email) = true := by
          refine migRun_mongo_mono ok hashFn oidOf rest _ _ ?_
          rw [hasEmail_append]
          have : hasEmail [migDoc hashFn (oidOf fu) fu] (jsToLower fu.email) = true := by
            simp [hasEmail, migDoc_email]
          rw [this, Bool.or_true]
        have hb : hasEmail ms2 (jsToLower fu.email) = true := h2 _ hfin
        rw [migRun_cons_skip ok hashFn oidOf fu rest ms2 hb]
        have h1' : ∀ e, hasEmail (ms1 ++ [migDoc hashFn (oidOf fu) fu]) e = true →
            hasEmail ms2 e = true := by
          intro e he
          rw [hasEmail_append] at he
          rcases Bool.or_eq_true_iff.mp he with hl | hr
          · exact h1 e hl
          · have : (migDoc hashFn (oidOf fu) fu).email = e := by
              have := List.any_eq_true.mp hr
              obtain ⟨m, hm, hbe⟩ := this
              rcases List.mem_singleton.mp hm with rfl
              exact beq_iff_eq.mp hbe
            rw [migDoc_email] at this
            rw [← this]
            exact hb
        obtain ⟨c0, cind⟩ := ih (ms1 ++ [migDoc hashFn (oidOf fu) fu]) ms2 h1' h2
        refine ⟨?_, ?_⟩
        · simpa [List.count_cons] using c0
        · intro i hi
          cases i with
          | zero => simp
          | succ j =>
            simp only [List.getElem?_cons_succ] at hi ⊢
            exact cind j hi
      · -- run 1 errored on fu; run 2 either skips or errors again, never migrates
        have hokf : ok fu = false := by simpa using hok
        rw [migRun_cons_error ok hashFn oidOf fu rest ms1 haf hokf] at h2 ⊢
        obtain ⟨c0, cind⟩ := ih ms1 ms2 h1 h2
        by_cases hb : hasEmail ms2 (jsToLower fu.email) = true
        · rw [migRun_cons_skip ok hashFn oidOf fu rest ms2 hb]
          refine ⟨by simpa [List.count_cons] using c0, ?_⟩
          intro i hi
          cases i with
          | zero => simp at hi
          | succ j =>
            simp only [List.getElem?_cons_succ] at hi ⊢
            exact cind j hi
        · have hbf : hasEmail ms2 (jsToLower fu.email) = false := by simpa using hb
          rw [migRun_cons_error ok hashFn oidOf fu rest ms2 hbf hokf]
          refine ⟨by simpa [List.count_cons] using c0, ?_⟩
          intro i hi
          cases i with
          | zero => simp at hi
          | succ j =>
            simp only [List.getElem?_cons_succ] at hi ⊢
            exact cind j hi

/-- C7: running `migrateUsers` a second time immediately after a first
complete (connected) run reports zero newly migrated records, and every
record the first run migrated is skipped by the existing-email check in
the second run. -/
theorem migrateUsers_idempotent (ok : FileUser → Bool) (hashFn : String → String)
    (oidOf : FileUser → String) (fileUsers : List FileUser)
    (mongo0 mongo1 : List MongoUser) (sum1 : MigSummary)
    (h1 : migrateUsers true ok hashFn oidOf fileUsers mongo0 = some (sum1, mongo1)) :
    ∃ sum2 mongo2,
      migrateUsers true ok hashFn oidOf fileUsers mongo1 = some (sum2, mongo2) ∧
      sum2.migratedCount = 0 ∧
      ∀ i : Nat, (migRun ok hashFn oidOf fileUsers mongo0).1[i]? = some MigOutcome.migrated →
        (migRun ok hashFn oidOf fileUsers mongo1).1[i]? = some MigOutcome.skipped := by
  have hmongo : mongo1 = (migRun ok hashFn oidOf fileUsers mongo0).2 := by
    unfold migrateUsers at h1
    rw [if_pos rfl] at h1
    have := (Option.some.inj h1)
    exact (congrArg Prod.snd this).symm
  subst hmongo
  obtain ⟨c0, cind⟩ := migRun_second_run ok hashFn oidOf fileUsers mongo0
    (migRun ok hashFn oidOf fileUsers mongo0).2
    (fun e he => migRun_mongo_mono ok hashFn oidOf fileUsers mongo0 e he)
    (fun _ he => he)
  have hrun : migrateUsers true ok hashFn oidOf fileUsers
      (migRun ok hashFn oidOf fileUsers mongo0).2 =
      some (⟨(migRun ok hashFn oidOf fileUsers
          (migRun ok hashFn oidOf fileUsers mongo0).2).1.count MigOutcome.migrated,
        (migRun ok hashFn oidOf fileUsers
          (migRun ok hashFn oidOf fileUsers mongo0).2).1.count MigOutcome.skipped,
        (migRun ok hashFn oidOf fileUsers
          (migRun ok hashFn oidOf fileUsers mongo0).2).1.count MigOutcome.errored,
        fileUsers.length⟩,
        (migRun ok hashFn oidOf fileUsers
          (migRun ok hashFn oidOf fileUsers mongo0).2).2) := by
    unfold migrateUsers
    rw [if_pos rfl]
  exact ⟨_, _, hrun, c0, cind⟩

/-- Witness for C7: migrating two records into an empty Secondary Store
and re-running. -/
theorem migrateUsers_idempotent_witness :
    migrateUsers true okEx bcryptModel oidEx [userA, userC] [] =
      some (migFirst.1, migFirst.2) ∧
    ∃ sum2 mongo2,
      migrateUsers true okEx bcryptModel oidEx [userA, userC] migFirst.2 =
        some (sum2, mongo2) ∧
      sum2.migratedCount = 0 ∧
      ∀ i : Nat, (migRun okEx bcryptModel oidEx [userA, userC] []).1[i]? =
          some MigOutcome.migrated →
        (migRun okEx bcryptModel oidEx [userA, userC] migFirst.2).1[i]? =
          some MigOutcome.skipped :=
  ⟨by decide,
    migrateUsers_idempotent okEx bcryptModel oidEx [userA, userC] []
      migFirst.2 migFirst.1 (by decide)⟩

end RegForm






